import Mathlib

/-!
Shallow embedding of the connection-supervisor modules of the MERN status
dashboard backend: the MongoDB supervisor (src/backend/src/config/mongodb.js),
the node-redis supervisor (src/backend/src/config/redis.js, both revisions
present in the repository file) and the ioredis-based supervisor revision
(src/unnamed/part_000, second copy). Network replies (server status, INFO
output, command results) are inputs to the embedded functions; thrown
JavaScript errors are modelled with Except; JavaScript objects built from
key/value diagnostic text are modelled as association lists with
overwrite-on-insert semantics.
-/

namespace Js

/-- JavaScript truthiness of an optional string: undefined/null and the
empty string are falsy. -/
def truthy : Option String → Bool
  | none => false
  | some s => !s.data.isEmpty

/-- JavaScript `x || d` for an optional string `x`: undefined and the
empty string fall back to the default. -/
def orDefault (o : Option String) (d : String) : String :=
  match o with
  | none => d
  | some s => if s.data.isEmpty then d else s

/-- Split a character list at every occurrence of the two-character
separator CR LF, as JavaScript `split("\r\n")` does. -/
def splitCRLFAux : List Char → List (List Char)
  | [] => [[]]
  | '\r' :: '\n' :: rest => [] :: splitCRLFAux rest
  | c :: rest =>
      match splitCRLFAux rest with
      | [] => [[c]]
      | t :: ts => (c :: t) :: ts

/-- JavaScript `s.split("\r\n")`. -/
def splitCRLF (s : String) : List String :=
  (splitCRLFAux s.data).map String.mk

/-- Split a character list at every occurrence of a one-character
separator, as JavaScript `split(sep)` does. -/
def splitCharAux (sep : Char) : List Char → List (List Char)
  | [] => [[]]
  | c :: rest =>
      let r := splitCharAux sep rest
      if c = sep then [] :: r
      else
        match r with
        | [] => [[c]]
        | t :: ts => (c :: t) :: ts

/-- JavaScript `s.split(sep)` for a single-character separator. -/
def splitChar (sep : Char) (s : String) : List String :=
  (splitCharAux sep s.data).map String.mk

/-- Does the first list occur at the head of the second? -/
def startsList : List Char → List Char → Bool
  | [], _ => true
  | _ :: _, [] => false
  | a :: as, b :: bs => a = b && startsList as bs

/-- Does the first list occur anywhere inside the second? -/
def hasSub (needle : List Char) : List Char → Bool
  | [] => needle.isEmpty
  | c :: rest => startsList needle (c :: rest) || hasSub needle rest

/-- JavaScript `hay.includes(needle)` for strings. -/
def includesStr (hay needle : String) : Bool := hasSub needle.data hay.data

/-- JavaScript `s.startsWith("#")`. -/
def startsWithHash (s : String) : Bool :=
  match s.data with
  | c :: _ => c = '#'
  | [] => false

/-- JavaScript `s.trim()`. -/
def trimStr (s : String) : String :=
  String.mk (((s.data.dropWhile Char.isWhitespace).reverse.dropWhile
    Char.isWhitespace).reverse)

/-- JavaScript `s.toLowerCase()` (ASCII fragment). -/
def lowerStr (s : String) : String := String.mk (s.data.map Char.toLower)

/-- Decimal value of a digit run. -/
def digitsToNat (cs : List Char) : Nat :=
  cs.foldl (fun a c => a * 10 + (c.toNat - 48)) 0

/-- JavaScript `parseInt(s)`: skip leading whitespace, optional sign, then
the longest digit run; `none` models NaN. -/
def parseIntOpt (s : String) : Option Int :=
  let cs := s.data.dropWhile Char.isWhitespace
  match cs with
  | '-' :: rest =>
      let ds := rest.takeWhile Char.isDigit
      if ds.isEmpty then none else some (-(digitsToNat ds : Int))
  | '+' :: rest =>
      let ds := rest.takeWhile Char.isDigit
      if ds.isEmpty then none else some ((digitsToNat ds : Int))
  | _ =>
      let ds := cs.takeWhile Char.isDigit
      if ds.isEmpty then none else some ((digitsToNat ds : Int))

/-- JavaScript `parseInt(x) || 0` on an optional string: NaN (and an
absent value) becomes 0. -/
def parseIntOr0 (o : Option String) : Int :=
  match o with
  | none => 0
  | some s => (parseIntOpt s).getD 0

/-- JavaScript object property assignment `obj[k] = v` on an association
list: overwrite an existing key in place, append a new key. -/
def objInsert (m : List (String × String)) (k v : String) :
    List (String × String) :=
  if m.any (fun p => p.1 == k) then
    m.map (fun p => if p.1 == k then (k, v) else p)
  else m ++ [(k, v)]

/-- JavaScript object property read `obj[k]`: undefined is `none`. -/
def objGet (m : List (String × String)) (k : String) : Option String :=
  (m.find? (fun p => p.1 == k)).map (fun p => p.2)

/-- Pair up a flat `[k1, v1, k2, v2, ...]` reply array; a trailing odd key
(whose value would be undefined) is dropped. -/
def chunkPairs : List String → List (String × String)
  | k :: v :: rest => (k, v) :: chunkPairs rest
  | _ => []

/-- Build a JavaScript object from a flat key/value reply array. -/
def objOfPairs (l : List String) : List (String × String) :=
  (chunkPairs l).foldl (fun m kv => objInsert m kv.1 kv.2) []

/-- Collect a list of optionals; `none` anywhere models a thrown
TypeError aborting the whole `.map`. -/
def optList {α : Type} : List (Option α) → Option (List α)
  | [] => some []
  | none :: _ => none
  | some a :: rest => (optList rest).map (fun l => a :: l)

end Js

namespace Redis

/-- A member entry of the cache-store status node list. JavaScript object
literals carry different key sets per code path, so every field is
optional; absent fields are `none` (undefined). The numeric fallback 0 of
`slaveInfo.lag || 0` is rendered as the string "0". -/
structure Node where
  id : Option String := none
  address : Option String := none
  flags : Option String := none
  role : Option String := none
  status : Option String := none
  info : Option String := none
  lag : Option String := none
  name : Option String := none
  sentinels : Option String := none
  deriving DecidableEq

/-- The Status Record owned by the RedisConnection supervisor
(redis.js constructor). -/
structure Status where
  connected : Bool
  message : String
  lastChecked : Option String
  connectionAttempts : Nat
  lastError : Option String
  mode : Option String
  role : Option String
  clusterNodes : List Node
  deriving DecidableEq

/-- Initial Status Record from the RedisConnection constructor. -/
def initialStatus : Status :=
  { connected := false, message := "Not initialized", lastChecked := none,
    connectionAttempts := 0, lastError := none, mode := none, role := none,
    clusterNodes := [] }

/-- The update maps passed to `updateStatus` by its call sites: a field
that is `none` is absent from the map; `some none` sets an optional status
field to null. No call site ever names lastChecked or connectionAttempts. -/
structure Updates where
  connected : Option Bool := none
  message : Option String := none
  lastError : Option (Option String) := none
  mode : Option (Option String) := none
  role : Option (Option String) := none
  clusterNodes : Option (List Node) := none
  deriving DecidableEq

/-- redis.js `updateStatus`: spread the previous record, spread the update
map over it, then overwrite lastChecked with the current time and
connectionAttempts with the previous value plus one. -/
def updateStatus (s : Status) (u : Updates) (now : String) : Status :=
  { connected := u.connected.getD s.connected,
    message := u.message.getD s.message,
    lastError := u.lastError.getD s.lastError,
    mode := u.mode.getD s.mode,
    role := u.role.getD s.role,
    clusterNodes := u.clusterNodes.getD s.clusterNodes,
    lastChecked := some now,
    connectionAttempts := s.connectionAttempts + 1 }

/-- redis.js `parseRedisInfo`: split INFO output on CRLF, skip empty and
comment lines, split each line on the first colon, keep pairs whose key is
nonempty (`value !== undefined` is the arity check), trimming the value. -/
def parseRedisInfo (info : String) : List (String × String) :=
  (Js.splitCRLF info).foldl
    (fun acc line =>
      if !line.data.isEmpty && !Js.startsWithHash line then
        match Js.splitChar ':' line with
        | k :: v :: _ => if !k.data.isEmpty then Js.objInsert acc k (Js.trimStr v) else acc
        | _ => acc
      else acc) []

/-- redis.js `parseSlaveInfo`: split "ip=...,port=...,state=...,lag=..."
into an object, keeping pairs whose key and value are both truthy. -/
def parseSlaveInfo (slaveStr : String) : List (String × String) :=
  (Js.splitChar ',' slaveStr).foldl
    (fun acc part =>
      match Js.splitChar '=' part with
      | k :: v :: _ =>
          if !k.data.isEmpty && !v.data.isEmpty then Js.objInsert acc k v else acc
      | _ => acc) []

/-- One line of CLUSTER NODES output; `none` models the TypeError thrown
when `parts[2]` is undefined. -/
def clusterLineNode (line : String) : Option Node :=
  let parts := Js.splitChar ' ' line
  match parts.get? 2 with
  | none => none
  | some flags =>
      some { id := parts.get? 0, address := parts.get? 1, flags := some flags,
             role := some (if Js.includesStr flags "master" then "master" else "slave"),
             status := some (if parts.get? 7 = some "connected"
               then "connected" else "disconnected") }

/-- redis.js `parseClusterNodes`; a thrown TypeError on any malformed line
aborts the whole call (`Except.error`), to be caught by the caller. -/
def parseClusterNodes (nodesStr : String) : Except Unit (List Node) :=
  let lines := (Js.splitChar '\n' nodesStr).filter
    (fun l => !(Js.trimStr l).data.isEmpty)
  match Js.optList (lines.map clusterLineNode) with
  | some ns => Except.ok ns
  | none => Except.error ()

/-- The node built for one monitored master in the sentinel branch of
`getRedisInfo`; `none` models the TypeError when `master.flags` is
undefined. -/
def sentinelMasterNode (m : List (String × String)) : Option Node :=
  match Js.objGet m "flags" with
  | none => none
  | some fl =>
      some { name := Js.objGet m "name", role := some "monitored-master",
             status := some (if Js.includesStr fl "down" then "down" else "up"),
             address := some ((Js.objGet m "ip").getD "undefined" ++ ":"
               ++ (Js.objGet m "port").getD "undefined"),
             sentinels := Js.objGet m "num_other_sentinels" }

/-- The self entry pushed for the master in the replication branch. -/
def masterSelfNode : Node :=
  { role := some "master", info := some "current", status := some "connected" }

/-- The node built from one `slaveN` line of the replication info block. -/
def slaveNode (s : String) : Node :=
  let si := parseSlaveInfo s
  { role := some "slave",
    address := some ((Js.objGet si "ip").getD "undefined" ++ ":"
      ++ (Js.objGet si "port").getD "undefined"),
    status := some (if Js.objGet si "state" = some "online"
      then "connected" else "disconnected"),
    lag := some (Js.orDefault (Js.objGet si "lag") "0") }

/-- The loop over `slave0 .. slave(n-1)` keys of the parsed replication
info block; keys that are absent are skipped. -/
def slaveNodes (replObj : List (String × String)) (n : Nat) : List Node :=
  (List.range n).filterMap
    (fun i => (Js.objGet replObj ("slave" ++ toString i)).map slaveNode)

/-- External inputs consumed by one run of redis.js `getRedisInfo` (first
revision): the INFO reply, the result of the sentinel probe
(`checkIfSentinel` never raises and yields a Bool), the raw SENTINEL
masters reply rows, the CLUSTER NODES reply and the INFO replication
reply. Errors of awaited commands are `Except.error`. -/
structure Probes where
  info : Except String String
  isSentinel : Bool
  sentinelMastersData : Except String (List (List String))
  clusterNodesCmd : Except String String
  replicationInfo : Except String String

/-- redis.js `getRedisInfo` (first revision, lines 33-162): classify the
cache store and write mode/role/clusterNodes directly into the status
record (no updateStatus, so connectionAttempts is untouched). -/
def getRedisInfo (p : Probes) (s : Status) : Status :=
  match p.info with
  | Except.error _ =>
      { s with mode := some "standalone", role := some "master", clusterNodes := [] }
  | Except.ok infoStr =>
    let infoObj := parseRedisInfo infoStr
    let role := Js.orDefault (Js.objGet infoObj "role") "master"
    if p.isSentinel then
      let rows := match p.sentinelMastersData with
        | Except.ok rs => rs.map Js.objOfPairs
        | Except.error _ => []
      let nodes := match Js.optList (rows.map sentinelMasterNode) with
        | some ns => ns
        | none => []
      { s with mode := some "sentinel", role := some "sentinel", clusterNodes := nodes }
    else if Js.objGet infoObj "cluster_enabled" = some "1" then
      let nodes := match p.clusterNodesCmd with
        | Except.ok str =>
            match parseClusterNodes str with
            | Except.ok ns => ns
            | Except.error _ => []
        | Except.error _ => []
      { s with mode := some "cluster", role := some role, clusterNodes := nodes }
    else if role = "slave" then
      let masterHost := Js.orDefault (Js.objGet infoObj "master_host") "unknown"
      let masterPort := Js.orDefault (Js.objGet infoObj "master_port") "unknown"
      let nodes : List Node :=
        [ { role := some "master", address := some (masterHost ++ ":" ++ masterPort),
            status := some (if Js.objGet infoObj "master_link_status" = some "up"
              then "connected" else "disconnected") },
          { role := some "slave", info := some "current", status := some "connected" } ]
      { s with mode := some "replication", role := some role, clusterNodes := nodes }
    else if role = "master" then
      let connectedSlaves := Js.parseIntOr0 (Js.objGet infoObj "connected_slaves")
      if 0 < connectedSlaves then
        let nodes := match p.replicationInfo with
          | Except.ok replStr =>
              masterSelfNode :: slaveNodes (parseRedisInfo replStr) connectedSlaves.toNat
          | Except.error _ => []
        { s with mode := some "replication", role := some role, clusterNodes := nodes }
      else
        { s with mode := some "standalone", role := some role, clusterNodes := [] }
    else
      { s with mode := some "standalone", role := some role, clusterNodes := [] }

/-- The connection events handled by redis.js `setupEventListeners`, each
carrying the timestamp of its status mutation; the ready event also
carries the diagnostic replies its classification run consumes. -/
inductive Event where
  | ready (now : String) (p : Probes)
  | errorEv (msg now : String)
  | endEv (now : String)
  | reconnecting (now : String)

/-- One event-handler execution of redis.js `setupEventListeners`. -/
def step (e : Event) (s : Status) : Status :=
  match e with
  | Event.ready now p =>
      getRedisInfo p (updateStatus s
        { connected := some true, message := some "Connected successfully",
          lastError := some none } now)
  | Event.errorEv msg now =>
      updateStatus s
        { connected := some false, message := some "Connection error",
          lastError := some (some msg) } now
  | Event.endEv now =>
      updateStatus s
        { connected := some false, message := some "Connection closed",
          mode := some none, role := some none, clusterNodes := some [] } now
  | Event.reconnecting now =>
      updateStatus s { message := some "Reconnecting..." } now

/-- A sequence of connection events applied in order. -/
def run (evs : List Event) (s : Status) : Status :=
  evs.foldl (fun a e => step e a) s

/-- redis.js `reconnectStrategy` (socket option): give up past maxRetries,
otherwise delay `min(retries * retryDelay, 30000)` milliseconds. -/
def reconnectStrategy (maxRetries retryDelay retries : Nat) : Except String Nat :=
  if maxRetries < retries then Except.error "Max retries reached"
  else Except.ok (min (retries * retryDelay) 30000)

/-- redis.js `connect` (second revision, lines 662-772), restricted to its
status effects: with neither sentinel hosts nor a URI configured it
records the optional-backend status and returns; otherwise the awaited
transport connect result decides between normal return and re-raise after
an error status update. -/
def connectV2 (sentinelHosts redisURI : Option String) (now : String)
    (connectResult : Except String Unit) (s : Status) :
    Except String Unit × Status :=
  if !Js.truthy sentinelHosts && !Js.truthy redisURI then
    (Except.ok (), updateStatus s
      { connected := some false, message := some "Redis not configured (optional)",
        lastError := some none } now)
  else
    match connectResult with
    | Except.ok _ => (Except.ok (), s)
    | Except.error e =>
        (Except.error e, updateStatus s
          { connected := some false, message := some e,
            lastError := some (some e) } now)

/-- redis.js `getStatus`: `return this.status` — a pure read, shown with
the state it leaves behind. -/
def getStatusRun (s : Status) : Status × Status := (s, s)

end Redis

namespace Ioredis

/-- Supervisor state of the ioredis-based RedisConnection revision
(src/unnamed/part_000, second copy): the owned Status Record plus the
transport-kind flags set by `connect` and the retry bookkeeping. -/
structure State where
  status : Redis.Status
  isCluster : Bool
  isSentinel : Bool
  currentRetry : Nat
  isReconnecting : Bool

/-- Constructor state of the ioredis RedisConnection. -/
def initialState : State :=
  { status := Redis.initialStatus, isCluster := false, isSentinel := false,
    currentRetry := 0, isReconnecting := false }

/-- ioredis `connect`, restricted to its configuration dispatch: with no
configuration at all record the optional-backend status; otherwise the
cluster node list takes precedence (setting isCluster), then sentinel
hosts (setting isSentinel), then the standard URI. -/
def connect (clusterNodes sentinelHosts redisURI : Option String)
    (now : String) (st : State) : State :=
  if !Js.truthy sentinelHosts && !Js.truthy redisURI && !Js.truthy clusterNodes then
    let u : Redis.Updates :=
      { connected := some false,
        message := some "Redis not configured (optional)",
        lastError := some none }
    { st with status := Redis.updateStatus st.status u now }
  else if Js.truthy clusterNodes then { st with isCluster := true }
  else if Js.truthy sentinelHosts then { st with isSentinel := true }
  else st

/-- ioredis `getRedisInfo` (src/unnamed/part_000 lines 317-366): return
untouched unless the client is ready; a cluster client is classified
`cluster` unconditionally, a sentinel client `sentinel`; only the standard
client consults the INFO reply. The catch clause of this revision only
logs. -/
def getRedisInfo (clientStatus : String) (info : Except String String)
    (st : State) : State :=
  if clientStatus ≠ "ready" then st
  else if st.isCluster then
    { st with status := { st.status with
        mode := some "cluster", role := some "cluster-node" } }
  else if st.isSentinel then
    { st with status := { st.status with
        mode := some "sentinel", role := some "managed-by-sentinel" } }
  else
    match info with
    | Except.error _ => st
    | Except.ok infoStr =>
        let infoObj := Redis.parseRedisInfo infoStr
        let role := Js.orDefault (Js.objGet infoObj "role") "master"
        let mode :=
          if Js.objGet infoObj "cluster_enabled" = some "1" then "cluster"
          else if role = "slave" then "replication"
          else if role = "master"
              && (match Js.parseIntOpt ((Js.objGet infoObj "connected_slaves").getD "")
                  with
                  | some n => decide (0 < n)
                  | none => false) then "replication"
          else "standalone"
        { st with status := { st.status with
            mode := some mode, role := some role, clusterNodes := [] } }

end Ioredis

namespace Mongo

/-- A member entry of the document-store status node list; heterogeneous
JavaScript object literals, hence optional fields. -/
structure Node where
  host : Option String := none
  role : Option String := none
  health : Option String := none
  state : Option String := none
  uptime : Option Int := none
  name : Option String := none
  deriving DecidableEq

/-- The Status Record owned by the MongoDBConnection supervisor
(mongodb.js constructor). -/
structure Status where
  connected : Bool
  message : String
  lastChecked : Option String
  connectionAttempts : Nat
  lastError : Option String
  topology : Option String
  replicaSet : Option String
  nodes : List Node
  deriving DecidableEq

/-- Initial Status Record from the MongoDBConnection constructor. -/
def initialStatus : Status :=
  { connected := false, message := "Not initialized", lastChecked := none,
    connectionAttempts := 0, lastError := none, topology := none,
    replicaSet := none, nodes := [] }

/-- The update maps passed to mongodb.js `updateStatus` by its call sites
(connected/error/disconnected/reconnected handlers, connect failure, and
the retries-exhausted branch); no call site names replicaSet, lastChecked
or connectionAttempts. -/
structure Updates where
  connected : Option Bool := none
  message : Option String := none
  lastError : Option (Option String) := none
  topology : Option (Option String) := none
  nodes : Option (List Node) := none
  deriving DecidableEq

/-- mongodb.js `updateStatus`: spread the previous record, spread the
update map, then overwrite lastChecked and increment connectionAttempts. -/
def updateStatus (s : Status) (u : Updates) (now : String) : Status :=
  { connected := u.connected.getD s.connected,
    message := u.message.getD s.message,
    lastError := u.lastError.getD s.lastError,
    topology := u.topology.getD s.topology,
    nodes := u.nodes.getD s.nodes,
    replicaSet := s.replicaSet,
    lastChecked := some now,
    connectionAttempts := s.connectionAttempts + 1 }

/-- The `repl` section of a serverStatus reply (only setName is consulted
by the second-revision `updateTopology`). -/
structure Repl where
  setName : Option String := none
  deriving DecidableEq

/-- A serverStatus reply. -/
structure ServerStatus where
  repl : Option Repl := none
  process : Option String := none
  deriving DecidableEq

/-- A member of a replSetGetStatus reply. -/
structure Member where
  name : String
  stateStr : String
  health : Int
  uptime : Int
  deriving DecidableEq

/-- A replSetGetStatus reply; `members` may be absent. -/
structure ReplSetStatus where
  members : Option (List Member) := none
  deriving DecidableEq

/-- A thrown MongoDB driver error, with its optional codeName. -/
structure Err where
  codeName : Option String := none
  message : String := ""
  deriving DecidableEq

/-- One shard of a listShards reply. -/
structure Shard where
  host : String
  id : String
  state : Int
  deriving DecidableEq

/-- A listShards reply; `shards` may be absent. -/
structure ShardsInfo where
  shards : Option (List Shard) := none
  deriving DecidableEq

/-- The role string computed from a member's stateStr. -/
def memberRole (stateStr : String) : String :=
  if stateStr = "PRIMARY" then "primary"
  else if stateStr = "SECONDARY" then "secondary"
  else Js.lowerStr stateStr

/-- The truthy replica-set name of a serverStatus reply:
`serverStatus.repl && serverStatus.repl.setName`. -/
def replSetNameOf (ss : ServerStatus) : Option String :=
  match ss.repl with
  | some r => if Js.truthy r.setName then r.setName else none
  | none => none

/-- mongodb.js `updateTopology` (second revision, lines 353-430): detect
replicaSet via a truthy setName, verify with replSetGetStatus and
downgrade to standalone when that probe fails with NoReplicationEnabled;
else detect mongos/sharded via listShards; else standalone. Results are
written directly into the status record (no updateStatus call). -/
def updateTopology (serverStatusR : Except Err ServerStatus)
    (replSetStatusR : Except Err ReplSetStatus)
    (listShardsR : Except Err ShardsInfo) (s : Status) : Status :=
  match serverStatusR with
  | Except.error _ =>
      { s with topology := some "standalone", replicaSet := none, nodes := [] }
  | Except.ok ss =>
      match replSetNameOf ss with
      | some sn =>
          match replSetStatusR with
          | Except.ok rst =>
              let ns := match rst.members with
                | some ms => ms.map (fun m =>
                    { host := some m.name, role := some (memberRole m.stateStr),
                      health := some (if m.health = (1 : Int) then "healthy" else "unhealthy"),
                      state := some m.stateStr, uptime := some m.uptime })
                | none => []
              { s with topology := some "replicaSet", replicaSet := some sn, nodes := ns }
          | Except.error e =>
              if e.codeName = some "NoReplicationEnabled" then
                { s with topology := some "standalone", replicaSet := none, nodes := [] }
              else
                { s with topology := some "replicaSet", replicaSet := some sn, nodes := [] }
      | none =>
          if ss.process = some "mongos" then
            let ns := match listShardsR with
              | Except.ok si =>
                  match si.shards with
                  | some shs => shs.map (fun sh =>
                      { host := some sh.host, role := some "shard", name := some sh.id,
                        state := some (if sh.state = (1 : Int) then "active" else "inactive") })
                  | none => []
              | Except.error _ => []
            { s with topology := some "sharded", replicaSet := none, nodes := ns }
          else
            { s with topology := some "standalone", replicaSet := none, nodes := [] }

/-- Supervisor state of MongoDBConnection: the Status Record, retry
bookkeeping, and the number of reconnection timers currently pending
(each `setTimeout` in `handleReconnection` adds one; a fired timer
removes itself). -/
structure Sup where
  status : Status
  currentRetry : Nat
  maxRetries : Nat
  retryDelay : Nat
  isReconnecting : Bool
  pending : Nat

/-- Constructor state with the documented defaults
(MONGO_MAX_RETRIES 10, MONGO_RETRY_DELAY 5000). -/
def initialSup : Sup :=
  { status := initialStatus, currentRetry := 0, maxRetries := 10,
    retryDelay := 5000, isReconnecting := false, pending := 0 }

/-- mongodb.js `handleReconnection`: a no-op while a retry is already
pending; otherwise mark reconnecting, bump currentRetry, and schedule one
timer. -/
def handleReconnection (m : Sup) : Sup :=
  if m.isReconnecting then m
  else { m with isReconnecting := true, currentRetry := m.currentRetry + 1,
                pending := m.pending + 1 }

/-- The delay of the timer scheduled by mongodb.js `handleReconnection`:
`this.retryDelay * this.currentRetry` (after the increment) — no cap. -/
def reconnectDelay (retryDelay currentRetry : Nat) : Nat :=
  retryDelay * currentRetry

/-- Outcome of the awaited body of a fired reconnection timer: the
readyState guard skipped the connect, or connect resolved, or connect
threw with a message. -/
inductive TimerOutcome where
  | skipped
  | connectOk
  | connectFailed (msg : String)

/-- The diagnostic replies consumed by one `updateTopology` run. -/
structure TopoProbes where
  serverStatus : Except Err ServerStatus
  replSetStatus : Except Err ReplSetStatus
  listShards : Except Err ShardsInfo

/-- The connection events handled by mongodb.js `setupEventListeners`,
plus the firing of a scheduled reconnection timer. The fire-and-forget
`updateTopology` started by connected/reconnected/fullsetup is modelled
as completing within the handler, consuming the probes the event
carries. -/
inductive Event where
  | connected (now : String) (p : TopoProbes)
  | reconnected (now : String) (p : TopoProbes)
  | errorEv (msg now : String)
  | disconnected (now : String)
  | fullsetup (p : TopoProbes)
  | timerFired (now : String) (o : TimerOutcome)

/-- One event-handler (or timer-callback) execution of the MongoDB
supervisor. The timer callback replays connect's own failure path: status
update, a guarded inner handleReconnection call inside connect, then the
catch clause clearing isReconnecting and either rescheduling or recording
exhaustion. -/
def step (e : Event) (m : Sup) : Sup :=
  match e with
  | Event.connected now p =>
      let m1 := { m with currentRetry := 0, isReconnecting := false }
      let st1 := updateStatus m1.status
        { connected := some true, message := some "Connected successfully",
          lastError := some none } now
      { m1 with status := updateTopology p.serverStatus p.replSetStatus p.listShards st1 }
  | Event.reconnected now p =>
      let m1 := { m with currentRetry := 0, isReconnecting := false }
      let st1 := updateStatus m1.status
        { connected := some true, message := some "Reconnected successfully",
          lastError := some none } now
      { m1 with status := updateTopology p.serverStatus p.replSetStatus p.listShards st1 }
  | Event.errorEv msg now =>
      let u : Updates :=
        { connected := some false, message := some "Connection error",
          lastError := some (some msg) }
      { m with status := updateStatus m.status u now }
  | Event.disconnected now =>
      let u : Updates :=
        { connected := some false, message := some "Disconnected",
          topology := some none, nodes := some [] }
      let m1 := { m with status := updateStatus m.status u now }
      if m1.isReconnecting = false ∧ m1.currentRetry < m1.maxRetries then
        handleReconnection m1
      else m1
  | Event.fullsetup p =>
      { m with status := updateTopology p.serverStatus p.replSetStatus p.listShards m.status }
  | Event.timerFired now o =>
      if m.pending = 0 then m
      else
        let m1 := { m with pending := m.pending - 1 }
        match o with
        | TimerOutcome.skipped => { m1 with isReconnecting := false }
        | TimerOutcome.connectOk => { m1 with isReconnecting := false }
        | TimerOutcome.connectFailed msg =>
            let u1 : Updates :=
              { connected := some false, message := some msg,
                lastError := some (some msg) }
            let m2 := { m1 with status := updateStatus m1.status u1 now }
            let m3 := if m2.currentRetry < m2.maxRetries then handleReconnection m2 else m2
            let m4 := { m3 with isReconnecting := false }
            let u2 : Updates :=
              { message := some "Max reconnection attempts reached",
                lastError := some (some "Failed to reconnect after maximum retries") }
            if m4.currentRetry < m4.maxRetries then handleReconnection m4
            else { m4 with status := updateStatus m4.status u2 now }

/-- A sequence of supervisor events applied in order. -/
def run (evs : List Event) (m : Sup) : Sup :=
  evs.foldl (fun a e => step e a) m

/-- Events produced by the supervisor's own retry loop (everything except
the transport-driven connected/reconnected notifications). -/
def supervisorDriven : Event → Bool
  | Event.connected _ _ => false
  | Event.reconnected _ _ => false
  | _ => true

/-- mongodb.js `getReadyStateLabel`. -/
def getReadyStateLabel (state : Nat) : String :=
  if state = 0 then "disconnected"
  else if state = 1 then "connected"
  else if state = 2 then "connecting"
  else if state = 3 then "disconnecting"
  else "unknown"

/-- The record returned by mongodb.js `getStatus`: the spread status plus
the driver readyState and its label. -/
structure StatusView where
  connected : Bool
  message : String
  lastChecked : Option String
  connectionAttempts : Nat
  lastError : Option String
  topology : Option String
  replicaSet : Option String
  nodes : List Node
  readyState : Nat
  readyStateLabel : String
  deriving DecidableEq

/-- mongodb.js `getStatus` as a pure read of the status record and the
driver readyState. -/
def getStatus (s : Status) (readyState : Nat) : StatusView :=
  { connected := s.connected, message := s.message, lastChecked := s.lastChecked,
    connectionAttempts := s.connectionAttempts, lastError := s.lastError,
    topology := s.topology, replicaSet := s.replicaSet, nodes := s.nodes,
    readyState := readyState, readyStateLabel := getReadyStateLabel readyState }

/-- mongodb.js `getStatus` shown with the state it leaves behind: the
method body only reads. -/
def getStatusRun (s : Status) (readyState : Nat) : StatusView × Status :=
  (getStatus s readyState, s)

end Mongo

section HelperLemmas

@[simp]
theorem Mongo.mongoUpdateStatusAttempts (s : Mongo.Status) (u : Mongo.Updates)
    (t : String) :
    (Mongo.updateStatus s u t).connectionAttempts = s.connectionAttempts + 1 := rfl

@[simp]
theorem Redis.redisUpdateStatusAttempts (s : Redis.Status) (u : Redis.Updates)
    (t : String) :
    (Redis.updateStatus s u t).connectionAttempts = s.connectionAttempts + 1 := rfl

@[simp]
theorem Mongo.handleReconnection_status (m : Mongo.Sup) :
    (Mongo.handleReconnection m).status = m.status := by
  unfold Mongo.handleReconnection; split <;> rfl

@[simp]
theorem Mongo.updateTopology_attempts (a : Except Mongo.Err Mongo.ServerStatus)
    (b : Except Mongo.Err Mongo.ReplSetStatus)
    (c : Except Mongo.Err Mongo.ShardsInfo) (s : Mongo.Status) :
    (Mongo.updateTopology a b c s).connectionAttempts = s.connectionAttempts := by
  unfold Mongo.updateTopology
  split
  · rfl
  · split
    · split
      · rfl
      · split <;> rfl
    · split <;> rfl

@[simp]
theorem Redis.getRedisInfo_attempts (p : Redis.Probes) (s : Redis.Status) :
    (Redis.getRedisInfo p s).connectionAttempts = s.connectionAttempts := by
  simp only [Redis.getRedisInfo]
  repeat' split
  all_goals rfl

theorem Mongo.mongoStepAttemptsLe (e : Mongo.Event) (m : Mongo.Sup) :
    m.status.connectionAttempts ≤ (Mongo.step e m).status.connectionAttempts := by
  cases e with
  | connected now p => simp [Mongo.step]
  | reconnected now p => simp [Mongo.step]
  | errorEv msg now => simp [Mongo.step]
  | disconnected now =>
      simp only [Mongo.step]
      split <;> simp
  | fullsetup p => simp [Mongo.step]
  | timerFired now o =>
      simp only [Mongo.step]
      repeat' split
      all_goals (simp <;> omega)

theorem Mongo.mongoRunAttemptsLe (evs : List Mongo.Event) (m : Mongo.Sup) :
    m.status.connectionAttempts ≤ (Mongo.run evs m).status.connectionAttempts := by
  induction evs generalizing m with
  | nil => exact le_refl _
  | cons e t ih =>
      exact le_trans (Mongo.mongoStepAttemptsLe e m) (ih (Mongo.step e m))

theorem Redis.redisStepAttemptsLe (e : Redis.Event) (s : Redis.Status) :
    s.connectionAttempts ≤ (Redis.step e s).connectionAttempts := by
  cases e <;> simp [Redis.step]

theorem Redis.redisRunAttemptsLe (evs : List Redis.Event) (s : Redis.Status) :
    s.connectionAttempts ≤ (Redis.run evs s).connectionAttempts := by
  induction evs generalizing s with
  | nil => exact le_refl _
  | cons e t ih =>
      exact le_trans (Redis.redisStepAttemptsLe e s) (ih (Redis.step e s))

end HelperLemmas

/-- Diagnostic replies reporting a healthy single-member replica set,
used to drive a topology classification that populates the status. -/
def mongoReplProbes : Mongo.TopoProbes :=
  { serverStatus := Except.ok { repl := some { setName := some "rs0" }, process := none },
    replSetStatus := Except.ok
      { members := some [{ name := "db1:27017", stateStr := "PRIMARY",
                           health := 1, uptime := 5 }] },
    listShards := Except.error { codeName := none, message := "" } }

/-- The document-store status after a connected event (which classifies a
replica set) followed by an error event. -/
def claim1Run : Mongo.Status :=
  (Mongo.run [Mongo.Event.connected "t1" mongoReplProbes,
              Mongo.Event.errorEv "boom" "t2"] Mongo.initialSup).status

/-- C1 counterexample: after a connected event that classified a replica
set, the error handler sets connected to false but does not clear the
topology or the node list, so connected=false does not imply an
unknown/empty topology. -/
theorem claim1_counterexample :
    claim1Run.connected = false ∧ claim1Run.topology = some "replicaSet" ∧
    ¬(claim1Run.topology = none ∧ claim1Run.nodes = []) := by
  refine ⟨by decide, by decide, ?_⟩
  intro h
  exact absurd h.1 (by decide)

/-- C1 amended: the handlers that report a closed connection (the
document store's disconnected handler and the cache store's end handler)
clear topology/mode and the node list in the same status mutation that
sets connected to false; the error handlers set connected to false but
leave the topology/mode and node list unchanged. -/
theorem claim1_amended :
    (∀ (m : Mongo.Sup) (t : String),
        ((Mongo.step (Mongo.Event.disconnected t) m).status.connected = false) ∧
        ((Mongo.step (Mongo.Event.disconnected t) m).status.topology = none) ∧
        ((Mongo.step (Mongo.Event.disconnected t) m).status.nodes = [])) ∧
    (∀ (s : Redis.Status) (t : String),
        ((Redis.step (Redis.Event.endEv t) s).connected = false) ∧
        ((Redis.step (Redis.Event.endEv t) s).mode = none) ∧
        ((Redis.step (Redis.Event.endEv t) s).role = none) ∧
        ((Redis.step (Redis.Event.endEv t) s).clusterNodes = [])) ∧
    (∀ (m : Mongo.Sup) (msg t : String),
        ((Mongo.step (Mongo.Event.errorEv msg t) m).status.connected = false) ∧
        ((Mongo.step (Mongo.Event.errorEv msg t) m).status.topology = m.status.topology) ∧
        ((Mongo.step (Mongo.Event.errorEv msg t) m).status.nodes = m.status.nodes)) ∧
    (∀ (s : Redis.Status) (msg t : String),
        ((Redis.step (Redis.Event.errorEv msg t) s).connected = false) ∧
        ((Redis.step (Redis.Event.errorEv msg t) s).mode = s.mode) ∧
        ((Redis.step (Redis.Event.errorEv msg t) s).clusterNodes = s.clusterNodes)) := by
  refine ⟨fun m t => ?_, fun s t => ?_, fun m msg t => ?_, fun s msg t => ?_⟩
  · simp only [Mongo.step]
    split <;> simp [Mongo.updateStatus]
  · simp [Redis.step, Redis.updateStatus]
  · simp [Mongo.step, Mongo.updateStatus]
  · simp [Redis.step, Redis.updateStatus]

/-- C5 counterexample: the document-store supervisor schedules its
seventh reconnection attempt (at the default base delay of 5000 ms) after
35000 ms, not after the claimed min(7 * 5000, 30000) = 30000 ms — its
linear backoff is uncapped. -/
theorem claim5_counterexample :
    Mongo.reconnectDelay 5000 7 = 35000 ∧ min (7 * 5000) 30000 = 30000 ∧
    ¬(Mongo.reconnectDelay 5000 7 = min (7 * 5000) 30000) := by decide

/-- C5 amended: the cache-store reconnect strategy delays attempt n by
min(n * baseDelay, 30000) for n within the retry ceiling, while the
document-store supervisor delays attempt n by n * baseDelay with no
cap. -/
theorem claim5_amended :
    (∀ (mr d n : Nat), n ≤ mr →
        Redis.reconnectStrategy mr d n = Except.ok (min (n * d) 30000)) ∧
    (∀ d n : Nat, Mongo.reconnectDelay d n = d * n) := by
  refine ⟨fun mr d n h => ?_, fun d n => rfl⟩
  simp [Redis.reconnectStrategy, Nat.not_lt.mpr h]

/-- Witness for the amended C5 at concrete inputs. -/
theorem claim5_witness :
    Redis.reconnectStrategy 10 5000 3 = Except.ok 15000 ∧
    Mongo.reconnectDelay 5000 7 = 5000 * 7 := by
  have h1 := claim5_amended.1 10 5000 3 (by decide)
  have h2 := claim5_amended.2 5000 7
  exact ⟨by simpa using h1, h2⟩

/-- C6: for both backends, updateStatus sets connectionAttempts to
exactly its previous value plus one, and across any sequence of modelled
events (which include every operation that touches the status record) the
counter never decreases. -/
theorem claim6_connectionAttempts_monotonic :
    (∀ (s : Mongo.Status) (u : Mongo.Updates) (t : String),
        (Mongo.updateStatus s u t).connectionAttempts = s.connectionAttempts + 1) ∧
    (∀ (s : Redis.Status) (u : Redis.Updates) (t : String),
        (Redis.updateStatus s u t).connectionAttempts = s.connectionAttempts + 1) ∧
    (∀ (evs : List Mongo.Event) (m : Mongo.Sup),
        m.status.connectionAttempts ≤ (Mongo.run evs m).status.connectionAttempts) ∧
    (∀ (evs : List Redis.Event) (s : Redis.Status),
        s.connectionAttempts ≤ (Redis.run evs s).connectionAttempts) :=
  ⟨fun _ _ _ => rfl, fun _ _ _ => rfl, fun evs m => Mongo.mongoRunAttemptsLe evs m,
   fun evs s => Redis.redisRunAttemptsLe evs s⟩

/-- C8: the cache-store connect with neither sentinel hosts nor a URI
configured (the cluster node list is not read by this module) returns
without raising and records connected=false, the not-configured message,
and a null lastError. -/
theorem claim8_not_configured (sh ru : Option String)
    (hsh : Js.truthy sh = false) (hru : Js.truthy ru = false) (t : String)
    (r : Except String Unit) (s : Redis.Status) :
    (Redis.connectV2 sh ru t r s).1 = Except.ok () ∧
    (Redis.connectV2 sh ru t r s).2.connected = false ∧
    (Redis.connectV2 sh ru t r s).2.message = "Redis not configured (optional)" ∧
    (Redis.connectV2 sh ru t r s).2.lastError = none := by
  simp [Redis.connectV2, hsh, hru, Redis.updateStatus]

/-- Witness for C8 with no configuration at all. -/
theorem claim8_witness :
    (Redis.connectV2 none none "t0" (Except.ok ()) Redis.initialStatus).1
      = Except.ok () ∧
    (Redis.connectV2 none none "t0" (Except.ok ()) Redis.initialStatus).2.connected
      = false ∧
    (Redis.connectV2 none none "t0" (Except.ok ()) Redis.initialStatus).2.message
      = "Redis not configured (optional)" ∧
    (Redis.connectV2 none none "t0" (Except.ok ()) Redis.initialStatus).2.lastError
      = none :=
  claim8_not_configured none none rfl rfl "t0" (Except.ok ()) Redis.initialStatus

/-- C9: both getStatus implementations are pure reads — the status record
they leave behind is the one they were given, so an immediate second call
returns an identical record and no counter or timestamp moves. -/
theorem claim9_getStatus_readonly :
    (∀ (s : Mongo.Status) (rs : Nat),
        (Mongo.getStatusRun s rs).2 = s ∧
        (Mongo.getStatusRun ((Mongo.getStatusRun s rs).2) rs).1
          = (Mongo.getStatusRun s rs).1 ∧
        (Mongo.getStatusRun s rs).2.connectionAttempts = s.connectionAttempts ∧
        (Mongo.getStatusRun s rs).2.lastChecked = s.lastChecked) ∧
    (∀ s : Redis.Status,
        (Redis.getStatusRun s).2 = s ∧
        (Redis.getStatusRun ((Redis.getStatusRun s).2)).1 = (Redis.getStatusRun s).1 ∧
        (Redis.getStatusRun s).2.connectionAttempts = s.connectionAttempts ∧
        (Redis.getStatusRun s).2.lastChecked = s.lastChecked) :=
  ⟨fun _ _ => ⟨rfl, rfl, rfl, rfl⟩, fun _ => ⟨rfl, rfl, rfl, rfl⟩⟩

/-- C10: frame property of updateStatus for both backends — fields absent
from the update map keep their previous values (replicaSet is never in any
call site's map), fields present take exactly the given values, and
lastChecked/connectionAttempts are always overwritten as described. -/
theorem claim10_updateStatus_frame :
    (∀ (s : Mongo.Status) (u : Mongo.Updates) (t : String),
        ((u.connected = none → (Mongo.updateStatus s u t).connected = s.connected) ∧
         (∀ b, u.connected = some b → (Mongo.updateStatus s u t).connected = b) ∧
         (u.message = none → (Mongo.updateStatus s u t).message = s.message) ∧
         (∀ v, u.message = some v → (Mongo.updateStatus s u t).message = v) ∧
         (u.lastError = none → (Mongo.updateStatus s u t).lastError = s.lastError) ∧
         (∀ v, u.lastError = some v → (Mongo.updateStatus s u t).lastError = v) ∧
         (u.topology = none → (Mongo.updateStatus s u t).topology = s.topology) ∧
         (∀ v, u.topology = some v → (Mongo.updateStatus s u t).topology = v) ∧
         (u.nodes = none → (Mongo.updateStatus s u t).nodes = s.nodes) ∧
         (∀ v, u.nodes = some v → (Mongo.updateStatus s u t).nodes = v) ∧
         (Mongo.updateStatus s u t).replicaSet = s.replicaSet ∧
         (Mongo.updateStatus s u t).lastChecked = some t ∧
         (Mongo.updateStatus s u t).connectionAttempts = s.connectionAttempts + 1)) ∧
    (∀ (s : Redis.Status) (u : Redis.Updates) (t : String),
        ((u.connected = none → (Redis.updateStatus s u t).connected = s.connected) ∧
         (∀ b, u.connected = some b → (Redis.updateStatus s u t).connected = b) ∧
         (u.message = none → (Redis.updateStatus s u t).message = s.message) ∧
         (∀ v, u.message = some v → (Redis.updateStatus s u t).message = v) ∧
         (u.lastError = none → (Redis.updateStatus s u t).lastError = s.lastError) ∧
         (∀ v, u.lastError = some v → (Redis.updateStatus s u t).lastError = v) ∧
         (u.mode = none → (Redis.updateStatus s u t).mode = s.mode) ∧
         (∀ v, u.mode = some v → (Redis.updateStatus s u t).mode = v) ∧
         (u.role = none → (Redis.updateStatus s u t).role = s.role) ∧
         (∀ v, u.role = some v → (Redis.updateStatus s u t).role = v) ∧
         (u.clusterNodes = none →
            (Redis.updateStatus s u t).clusterNodes = s.clusterNodes) ∧
         (∀ v, u.clusterNodes = some v → (Redis.updateStatus s u t).clusterNodes = v) ∧
         (Redis.updateStatus s u t).lastChecked = some t ∧
         (Redis.updateStatus s u t).connectionAttempts = s.connectionAttempts + 1)) := by
  constructor
  · intro s u t
    refine ⟨?_, ?_, ?_, ?_, ?_, ?_, ?_, ?_, ?_, ?_, rfl, rfl, rfl⟩ <;>
      first
        | (intro h; simp [Mongo.updateStatus, h])
        | (intro v h; simp [Mongo.updateStatus, h])
  · intro s u t
    refine ⟨?_, ?_, ?_, ?_, ?_, ?_, ?_, ?_, ?_, ?_, ?_, ?_, rfl, rfl⟩ <;>
      first
        | (intro h; simp [Redis.updateStatus, h])
        | (intro v h; simp [Redis.updateStatus, h])

/-- Witness for C10: a concrete map naming only the message keeps every
other field, and the counter advances by exactly one. -/
theorem claim10_witness :
    (Mongo.updateStatus Mongo.initialStatus { message := some "hello" } "t0").connected
      = Mongo.initialStatus.connected ∧
    (Mongo.updateStatus Mongo.initialStatus { message := some "hello" } "t0").message
      = "hello" ∧
    (Mongo.updateStatus Mongo.initialStatus { message := some "hello" } "t0").connectionAttempts
      = Mongo.initialStatus.connectionAttempts + 1 := by
  have h := claim10_updateStatus_frame.1 Mongo.initialStatus
    { message := some "hello" } "t0"
  exact ⟨h.1 rfl, h.2.2.2.1 "hello" rfl, h.2.2.2.2.2.2.2.2.2.2.2.2⟩

/-- C2: when the server-status reply carries a truthy replica-set name
but the replSetGetStatus probe fails with NoReplicationEnabled, the
document-store classifier records topology standalone with the replica-set
name cleared and no members. -/
theorem claim2_noreplication_downgrade (r : Mongo.Repl)
    (hr : Js.truthy r.setName = true) (proc : Option String) (e : Mongo.Err)
    (hc : e.codeName = some "NoReplicationEnabled")
    (ls : Except Mongo.Err Mongo.ShardsInfo) (s : Mongo.Status) :
    (Mongo.updateTopology (Except.ok { repl := some r, process := proc })
        (Except.error e) ls s).topology = some "standalone" ∧
    (Mongo.updateTopology (Except.ok { repl := some r, process := proc })
        (Except.error e) ls s).replicaSet = none ∧
    (Mongo.updateTopology (Except.ok { repl := some r, process := proc })
        (Except.error e) ls s).nodes = [] := by
  cases hsn : r.setName with
  | none => rw [hsn] at hr; exact absurd hr (by decide)
  | some sn =>
      rw [hsn] at hr
      simp [Mongo.updateTopology, Mongo.replSetNameOf, hsn, hr, hc]

/-- Witness for C2 at a concrete reply carrying setName rs0 and a
NoReplicationEnabled probe failure. -/
theorem claim2_witness :
    (Mongo.updateTopology
        (Except.ok { repl := some { setName := some "rs0" }, process := none })
        (Except.error { codeName := some "NoReplicationEnabled",
                        message := "replication not enabled" })
        (Except.error { codeName := none, message := "" })
        Mongo.initialStatus).topology = some "standalone" ∧
    (Mongo.updateTopology
        (Except.ok { repl := some { setName := some "rs0" }, process := none })
        (Except.error { codeName := some "NoReplicationEnabled",
                        message := "replication not enabled" })
        (Except.error { codeName := none, message := "" })
        Mongo.initialStatus).replicaSet = none ∧
    (Mongo.updateTopology
        (Except.ok { repl := some { setName := some "rs0" }, process := none })
        (Except.error { codeName := some "NoReplicationEnabled",
                        message := "replication not enabled" })
        (Except.error { codeName := none, message := "" })
        Mongo.initialStatus).nodes = [] :=
  claim2_noreplication_downgrade { setName := some "rs0" } (by decide) none
    { codeName := some "NoReplicationEnabled", message := "replication not enabled" }
    rfl (Except.error { codeName := none, message := "" }) Mongo.initialStatus

/-- C3: an ioredis supervisor configured from a cluster node list has
isCluster set by connect, and every classification run on a ready cluster
client records mode cluster (role cluster-node) without consulting the
INFO reply, which is universally quantified here. -/
theorem claim3_cluster_config_unconditional (cn sh ru : Option String)
    (hcn : Js.truthy cn = true) (t : String) (st : Ioredis.State)
    (info : Except String String) :
    (Ioredis.connect cn sh ru t st).isCluster = true ∧
    (Ioredis.getRedisInfo "ready" info (Ioredis.connect cn sh ru t st)).status.mode
      = some "cluster" ∧
    (∀ st2 : Ioredis.State, st2.isCluster = true →
        (Ioredis.getRedisInfo "ready" info st2).status.mode = some "cluster" ∧
        (Ioredis.getRedisInfo "ready" info st2).status.role = some "cluster-node") := by
  have hc : (Ioredis.connect cn sh ru t st).isCluster = true := by
    simp [Ioredis.connect, hcn]
  refine ⟨hc, ?_, fun st2 h2 => ?_⟩
  · simp [Ioredis.getRedisInfo, hc]
  · simp [Ioredis.getRedisInfo, h2]

/-- Witness for C3: a concrete cluster node list, with an INFO reply that
self-reports standalone fields, still classifies as cluster. -/
theorem claim3_witness :
    (Ioredis.connect (some "redis1:7001,redis2:7002") none none "t0"
        Ioredis.initialState).isCluster = true ∧
    (Ioredis.getRedisInfo "ready"
        (Except.ok "cluster_enabled:0\r\nrole:master\r\nconnected_slaves:0")
        (Ioredis.connect (some "redis1:7001,redis2:7002") none none "t0"
          Ioredis.initialState)).status.mode = some "cluster" :=
  have h := claim3_cluster_config_unconditional (some "redis1:7001,redis2:7002")
    none none (by decide) "t0" Ioredis.initialState
    (Except.ok "cluster_enabled:0\r\nrole:master\r\nconnected_slaves:0")
  ⟨h.1, h.2.1⟩

/-- C4: under a standard URI configuration (INFO available, sentinel
probe negative), the cache-store classifier follows the claimed
precedence on the parsed server-info record: cluster_enabled first, then
subordinate role, then primary role with connected subordinates (whose
entries are parsed from the replication info block), else standalone. -/
theorem claim4_uri_classifier_precedence (infoStr replStr : String)
    (smd : Except String (List (List String))) (cnc : Except String String)
    (s : Redis.Status) :
    ((Js.objGet (Redis.parseRedisInfo infoStr) "cluster_enabled" = some "1" →
        (Redis.getRedisInfo
          { info := Except.ok infoStr, isSentinel := false,
            sentinelMastersData := smd, clusterNodesCmd := cnc,
            replicationInfo := Except.ok replStr } s).mode = some "cluster") ∧
     (¬(Js.objGet (Redis.parseRedisInfo infoStr) "cluster_enabled" = some "1") →
      Js.orDefault (Js.objGet (Redis.parseRedisInfo infoStr) "role") "master"
        = "slave" →
        (Redis.getRedisInfo
          { info := Except.ok infoStr, isSentinel := false,
            sentinelMastersData := smd, clusterNodesCmd := cnc,
            replicationInfo := Except.ok replStr } s).mode = some "replication") ∧
     (¬(Js.objGet (Redis.parseRedisInfo infoStr) "cluster_enabled" = some "1") →
      Js.orDefault (Js.objGet (Redis.parseRedisInfo infoStr) "role") "master"
        = "master" →
      0 < Js.parseIntOr0 (Js.objGet (Redis.parseRedisInfo infoStr) "connected_slaves") →
        ((Redis.getRedisInfo
            { info := Except.ok infoStr, isSentinel := false,
              sentinelMastersData := smd, clusterNodesCmd := cnc,
              replicationInfo := Except.ok replStr } s).mode = some "replication" ∧
         (Redis.getRedisInfo
            { info := Except.ok infoStr, isSentinel := false,
              sentinelMastersData := smd, clusterNodesCmd := cnc,
              replicationInfo := Except.ok replStr } s).clusterNodes
           = Redis.masterSelfNode ::
               Redis.slaveNodes (Redis.parseRedisInfo replStr)
                 (Js.parseIntOr0
                   (Js.objGet (Redis.parseRedisInfo infoStr) "connected_slaves")).toNat)) ∧
     (¬(Js.objGet (Redis.parseRedisInfo infoStr) "cluster_enabled" = some "1") →
      Js.orDefault (Js.objGet (Redis.parseRedisInfo infoStr) "role") "master"
        = "master" →
      Js.parseIntOr0 (Js.objGet (Redis.parseRedisInfo infoStr) "connected_slaves") ≤ 0 →
        (Redis.getRedisInfo
          { info := Except.ok infoStr, isSentinel := false,
            sentinelMastersData := smd, clusterNodesCmd := cnc,
            replicationInfo := Except.ok replStr } s).mode = some "standalone") ∧
     (¬(Js.objGet (Redis.parseRedisInfo infoStr) "cluster_enabled" = some "1") →
      ¬(Js.orDefault (Js.objGet (Redis.parseRedisInfo infoStr) "role") "master"
        = "slave") →
      ¬(Js.orDefault (Js.objGet (Redis.parseRedisInfo infoStr) "role") "master"
        = "master") →
        (Redis.getRedisInfo
          { info := Except.ok infoStr, isSentinel := false,
            sentinelMastersData := smd, clusterNodesCmd := cnc,
            replicationInfo := Except.ok replStr } s).mode = some "standalone")) := by
  refine ⟨fun h1 => ?_, fun h1 h2 => ?_, fun h1 h2 h3 => ?_, fun h1 h2 h3 => ?_,
          fun h1 h2 h3 => ?_⟩
  · simp [Redis.getRedisInfo, h1]
  · simp [Redis.getRedisInfo, h1, h2]
  · have h4 : ¬(Js.orDefault (Js.objGet (Redis.parseRedisInfo infoStr) "role")
        "master" = "slave") := by rw [h2]; decide
    constructor
    · simp [Redis.getRedisInfo, h1, h2, h4, Nat.lt_irrefl, h3]
    · simp [Redis.getRedisInfo, h1, h2, h4, h3]
  · have h4 : ¬(Js.orDefault (Js.objGet (Redis.parseRedisInfo infoStr) "role")
        "master" = "slave") := by rw [h2]; decide
    have h5 : ¬(0 < Js.parseIntOr0
        (Js.objGet (Redis.parseRedisInfo infoStr) "connected_slaves")) := by omega
    simp [Redis.getRedisInfo, h1, h2, h4, h5]
  · simp [Redis.getRedisInfo, h1, h2, h3]

/-- Witness for C4: a primary with one connected subordinate is
classified replication with the subordinate parsed (address and lag) from
the replication info block. -/
theorem claim4_witness :
    (Redis.getRedisInfo
        { info := Except.ok "role:master\r\nconnected_slaves:1",
          isSentinel := false, sentinelMastersData := Except.error "e",
          clusterNodesCmd := Except.error "e",
          replicationInfo :=
            Except.ok "slave0:ip=10.0.0.2,port=6379,state=online,offset=1,lag=0" }
        Redis.initialStatus).mode = some "replication" ∧
    (Redis.getRedisInfo
        { info := Except.ok "role:master\r\nconnected_slaves:1",
          isSentinel := false, sentinelMastersData := Except.error "e",
          clusterNodesCmd := Except.error "e",
          replicationInfo :=
            Except.ok "slave0:ip=10.0.0.2,port=6379,state=online,offset=1,lag=0" }
        Redis.initialStatus).clusterNodes
      = Redis.masterSelfNode ::
          Redis.slaveNodes
            (Redis.parseRedisInfo
              "slave0:ip=10.0.0.2,port=6379,state=online,offset=1,lag=0") 1 := by
  have h := (claim4_uri_classifier_precedence "role:master\r\nconnected_slaves:1"
    "slave0:ip=10.0.0.2,port=6379,state=online,offset=1,lag=0"
    (Except.error "e") (Except.error "e") Redis.initialStatus).2.2.1
    (by decide) (by decide) (by decide)
  exact ⟨h.1, h.2⟩

/-- Invariant preservation for the supervisor-driven retry loop: every
event other than a transport connected/reconnected notification keeps the
pending-timer count locked to the isReconnecting flag. -/
theorem mongoStepPendingInv (e : Mongo.Event)
    (he : Mongo.supervisorDriven e = true) (m : Mongo.Sup)
    (h : m.pending = if m.isReconnecting then 1 else 0) :
    (Mongo.step e m).pending = if (Mongo.step e m).isReconnecting then 1 else 0 := by
  cases e with
  | connected now p => simp [Mongo.supervisorDriven] at he
  | reconnected now p => simp [Mongo.supervisorDriven] at he
  | errorEv msg now => simpa [Mongo.step] using h
  | fullsetup p => simpa [Mongo.step] using h
  | disconnected now =>
      simp only [Mongo.step, Mongo.handleReconnection]
      repeat' split
      all_goals simp_all
  | timerFired now o =>
      simp only [Mongo.step, Mongo.handleReconnection]
      repeat' split
      all_goals simp_all

/-- Invariant carried along a supervisor-driven event sequence. -/
theorem mongoRunPendingInv (evs : List Mongo.Event) (m : Mongo.Sup)
    (hall : evs.all Mongo.supervisorDriven = true)
    (h : m.pending = if m.isReconnecting then 1 else 0) :
    (Mongo.run evs m).pending
      = if (Mongo.run evs m).isReconnecting then 1 else 0 := by
  induction evs generalizing m with
  | nil => exact h
  | cons e t ih =>
      rw [List.all_cons, Bool.and_eq_true] at hall
      exact ih (Mongo.step e m) hall.2 (mongoStepPendingInv e hall.1 m h)

/-- C7: handleReconnection is a no-op while a retry is already pending, a
disconnect event observed in that state changes no retry bookkeeping and
schedules nothing, and along any supervisor-driven event sequence from
the initial state at most one retry timer is ever pending. -/
theorem claim7_reconnect_guard :
    (∀ m : Mongo.Sup, m.isReconnecting = true → Mongo.handleReconnection m = m) ∧
    (∀ (m : Mongo.Sup) (t : String), m.isReconnecting = true →
        ((Mongo.step (Mongo.Event.disconnected t) m).pending = m.pending ∧
         (Mongo.step (Mongo.Event.disconnected t) m).isReconnecting = true ∧
         (Mongo.step (Mongo.Event.disconnected t) m).currentRetry = m.currentRetry)) ∧
    (∀ evs : List Mongo.Event, evs.all Mongo.supervisorDriven = true →
        (Mongo.run evs Mongo.initialSup).pending ≤ 1) := by
  refine ⟨fun m h => ?_, fun m t h => ?_, fun evs hall => ?_⟩
  · unfold Mongo.handleReconnection
    simp [h]
  · simp only [Mongo.step]
    split
    · next hcond => rw [h] at hcond; simp at hcond
    · simp [h]
  · have hinv := mongoRunPendingInv evs Mongo.initialSup hall (by rfl)
    rw [hinv]
    split <;> omega

/-- Witness for C7: a pending-retry state absorbs handleReconnection
unchanged, and one disconnect from the initial state leaves at most one
timer pending. -/
theorem claim7_witness :
    Mongo.handleReconnection { Mongo.initialSup with isReconnecting := true }
      = { Mongo.initialSup with isReconnecting := true } ∧
    (Mongo.run [Mongo.Event.disconnected "t0"] Mongo.initialSup).pending ≤ 1 :=
  ⟨claim7_reconnect_guard.1 { Mongo.initialSup with isReconnecting := true } rfl,
   claim7_reconnect_guard.2.2 [Mongo.Event.disconnected "t0"] (by decide)⟩
